import Mathlib

/-! voice-assistant-backend: audio validation, transcription adapter, upload
endpoint and conversation gateway.

A shallow embedding of `server.js`.  Asynchronous functions are embedded in
direct style: an `await` is a call whose outcome is either a value or a
rejection, so every `async function` becomes a function into `Except String _`
(the string is the `message` of the thrown error).  What a function does to the
outside world is recorded in an explicit list of `Effect`s, in program order,
and the file system is passed explicitly.  Console output is not part of the
trace.  The process handles `unhandledRejection` only, so an uncaught exception
outside a promise ends it: that is the third way a call can end (`Outcome`).

External collaborators (the `wavefile` container parser, the streaming
transcription client and the generative-text HTTP client) are parameters; the
upload middleware is embedded as far as the route depends on it.
-/

namespace VoiceAssistant

/-! ## Data model -/

/-- File content: a sequence of bytes. -/
abbrev Bytes := List Nat

/-- The file system: a path holds a file or nothing. -/
abbrev FS := String → Option Bytes

/-- The fields of `wav.fmt` that `verifyAudioFile` reads. -/
structure Fmt where
  sampleRate : Nat
  bitsPerSample : Nat
  audioFormat : Nat
  numChannels : Nat
deriving DecidableEq, Repr

/-- The constructor `new wavefile.WaveFile(buffer)`: it either throws or yields
an object whose `fmt` chunk has been read. -/
abbrev WaveFileCtor := Bytes → Except String Fmt

/-- One alternative of a transcription result. -/
structure Alternative where
  Transcript : String
deriving DecidableEq, Repr

/-- One result of a transcript event.  The code compares `IsPartial` with
`=== false`, so a missing flag is a value of its own; it iterates
`Alternatives` unguarded, so that member is a list. -/
structure Result where
  IsPartial : Option Bool
  Alternatives : List Alternative
deriving DecidableEq, Repr

/-- The `Transcript` member of a transcript event; `Results` may be missing. -/
structure TranscriptBody where
  Results : Option (List Result)
deriving DecidableEq, Repr

/-- The `TranscriptEvent` member of a stream event. -/
structure TranscriptEventBody where
  Transcript : Option TranscriptBody
deriving DecidableEq, Repr

/-- One element of `response.TranscriptResultStream`. -/
structure StreamEvent where
  TranscriptEvent : Option TranscriptEventBody
deriving DecidableEq, Repr

/-- The asynchronous sequence `response.TranscriptResultStream`: the events it
yields, and the error it throws after them when it does not end normally. -/
structure TranscriptResultStream where
  events : List StreamEvent
  failure : Option String
deriving DecidableEq, Repr

/-- One element `{ AudioEvent: { AudioChunk: chunk } }` of the audio stream. -/
structure AudioEvent where
  AudioChunk : Bytes
deriving DecidableEq, Repr

/-- The `params` given to `StartStreamTranscriptionCommand`. -/
structure StartStreamTranscriptionCommand where
  LanguageCode : String
  MediaEncoding : String
  MediaSampleRateHertz : String
  AudioStream : List AudioEvent
deriving DecidableEq, Repr

/-- The method `transcribeClient.send`: it rejects, or resolves to a response
carrying a transcript stream. -/
abbrev TranscribeSend := StartStreamTranscriptionCommand → Except String TranscriptResultStream

/-- The body posted to the generative-text API. -/
structure MessagesRequest where
  model : String
  max_tokens : Nat
  role : String
  content : String
deriving DecidableEq, Repr

/-- The call `claudeAPI.post`: it rejects, or resolves to a response whose
`data.content` is a list of blocks, each with a `text`. -/
abbrev ClaudePost := String → MessagesRequest → Except String (List String)

/-- What the program does to the outside world. -/
inductive Effect where
  | createReadStream (path : String) (highWaterMark : Nat)
  | sleep (ms : Nat)
  | send (command : StartStreamTranscriptionCommand)
  | unlink (path : String)
  | post (url : String) (body : MessagesRequest)
  | emit (event : String) (payload : String)
deriving DecidableEq, Repr

/-- How a call of an asynchronous function ends: its promise resolves, its
promise rejects, or the process exits on an uncaught exception before the
promise settles. -/
inductive Outcome (α : Type) where
  | resolved (value : α)
  | rejected (message : String)
  | exited (reason : String)
deriving DecidableEq, Repr

/-! ## Audio validator -/

/-- The call `verifyRawPCM(buffer)`.  The program declares no binding named
`verifyRawPCM` (no function, no variable, no import), so evaluating the call
raises a `ReferenceError`. -/
def verifyRawPCM (_buffer : Bytes) : Except String Bool :=
  Except.error "verifyRawPCM is not defined"

/-- The body of the `try` block of `verifyAudioFile`. -/
def verifyAudioFileBody (WaveFile : WaveFileCtor) (fs : FS) (audioFilePath : String) :
    Except String Bool :=
  -- const stats = await fs.promises.stat(audioFilePath)
  match fs audioFilePath with
  | none => Except.error ("ENOENT: no such file or directory, stat " ++ audioFilePath)
  | some buffer =>
    if buffer.length = 0 then
      Except.error "Audio file is empty"
    else
      match WaveFile buffer with
      | Except.error _wavError => verifyRawPCM buffer
      | Except.ok fmt =>
        if fmt.sampleRate ≠ 16000 then
          Except.error ("Invalid sample rate: " ++ toString fmt.sampleRate ++ ". Expected: 16000 Hz")
        else if fmt.bitsPerSample ≠ 16 then
          Except.error ("Invalid bits per sample: " ++ toString fmt.bitsPerSample ++ ". Expected: 16 bits")
        else if fmt.audioFormat ≠ 1 then
          Except.error "Audio is not in PCM format"
        else
          Except.ok true

/-- The function `verifyAudioFile`: the `catch` turns every error of the body
into the return value `false`. -/
def verifyAudioFile (WaveFile : WaveFileCtor) (fs : FS) (audioFilePath : String) :
    Except String Bool :=
  match verifyAudioFileBody WaveFile fs audioFilePath with
  | Except.ok b => Except.ok b
  | Except.error _ => Except.ok false

/-! ## Transcription adapter -/

/-- The code points removed by `String.prototype.trim`: the ECMAScript
`WhiteSpace` and `LineTerminator` productions. -/
def isJsWhiteSpace (c : Char) : Bool :=
  let n := c.toNat
  n = 0x09 || n = 0x0A || n = 0x0B || n = 0x0C || n = 0x0D || n = 0x20 || n = 0xA0 ||
  n = 0x1680 || (0x2000 ≤ n && n ≤ 0x200A) || n = 0x2028 || n = 0x2029 || n = 0x202F ||
  n = 0x205F || n = 0x3000 || n = 0xFEFF

/-- The method `String.prototype.trim`: white space is removed from both ends. -/
def jsTrim (s : String) : String :=
  String.mk ((s.data.rdropWhile isJsWhiteSpace).dropWhile isJsWhiteSpace)

/-- The loop `for (const alternative of result.Alternatives)` guarded by
`result.IsPartial === false`. -/
def accumulateResult (transcription : String) (result : Result) : String :=
  if result.IsPartial = some false then
    result.Alternatives.foldl
      (fun acc alternative => acc ++ (alternative.Transcript ++ " ")) transcription
  else
    transcription

/-- The body of `for await (const event of response.TranscriptResultStream)`. -/
def accumulateEvent (transcription : String) (event : StreamEvent) : String :=
  match event.TranscriptEvent with
  | none => transcription
  | some te =>
    match te.Transcript with
    | none => transcription
    | some t =>
      match t.Results with
      | none => transcription
      | some results =>
        if results.length > 0 then results.foldl accumulateResult transcription
        else transcription

/-- The chunks that the read stream opened with `highWaterMark` yields for a path. -/
def readChunks (fs : FS) (audioFilePath : String) (highWaterMark : Nat) : List Bytes :=
  match fs audioFilePath with
  | none => []
  | some buffer => buffer.toChunks highWaterMark

/-- The `params` object built by `transcribeAudio`. -/
def transcribeParams (fs : FS) (audioFilePath : String) : StartStreamTranscriptionCommand :=
  { LanguageCode := "en-US"
    MediaEncoding := "pcm"
    MediaSampleRateHertz := "16000"
    AudioStream := (readChunks fs audioFilePath (1024 * 16)).map (fun chunk => ⟨chunk⟩) }

/-- The message of the error thrown when validation fails. -/
def invalidAudioMessage (audioFilePath : String) : String :=
  "Invalid audio file " ++ audioFilePath ++
    ". Please ensure it\x27s a 16-bit PCM WAV file with 16000 Hz sample rate."

/-- The function `transcribeAudio`: how it ends and the effects it performed.
The read stream of line 146 gets no `error` listener: at a path that holds no
file its `error` event is an uncaught exception, raised while the function
sleeps, and the process exits.  At a path that holds a file the stream stays
unread until the transcription client consumes it. -/
def transcribeAudio (WaveFile : WaveFileCtor) (send : TranscribeSend) (fs : FS)
    (audioFilePath : String) : Outcome String × List Effect :=
  let opened := [Effect.createReadStream audioFilePath (1024 * 16), Effect.sleep 1000]
  match fs audioFilePath with
  | none =>
    (Outcome.exited ("ENOENT: no such file or directory, open " ++ audioFilePath), opened)
  | some _ =>
    match verifyAudioFile WaveFile fs audioFilePath with
    | Except.error e => (Outcome.rejected e, opened)
    | Except.ok false => (Outcome.rejected (invalidAudioMessage audioFilePath), opened)
    | Except.ok true =>
      let command := transcribeParams fs audioFilePath
      let sent := opened ++ [Effect.send command]
      match send command with
      | Except.error e => (Outcome.rejected e, sent)
      | Except.ok stream =>
        let transcription := stream.events.foldl accumulateEvent ""
        match stream.failure with
        | some e => (Outcome.rejected e, sent)
        | none => (Outcome.resolved (jsTrim transcription), sent)

/-! ## HTTP upload endpoint -/

/-- What the client is sent back: the plain text or the JSON object of the
handler, or the page of the framework for an error that a middleware passed on. -/
inductive Body where
  | text (s : String)
  | json (transcription : String)
  | defaultError (message : String)
deriving DecidableEq, Repr

/-- The response: status code and body. -/
structure Response where
  status : Nat
  body : Body
deriving DecidableEq, Repr

/-- The call `fs.unlink(path, cb)` on the file system. -/
def unlink (fs : FS) (path : String) : FS :=
  fun q => if q = path then none else fs q

/-- Storing content at a path. -/
def writeFile (fs : FS) (path : String) (content : Bytes) : FS :=
  fun q => if q = path then some content else fs q

/-- One file part of a multipart request body. -/
structure FilePart where
  fieldname : String
  originalname : String
  content : Bytes
deriving DecidableEq, Repr

/-- A `POST /upload-audio` request as the upload middleware reads it: the file
parts of its body, in order; none when the body is not multipart or has no file
part. -/
structure UploadRequest where
  files : List FilePart
deriving DecidableEq, Repr

/-- What the upload middleware does with a request: it calls the handler, with
`req.file.path` set when it stored a file, or it passes an error on. -/
inductive Uploaded where
  | next (file : Option String) (fs : FS)
  | failed (message : String) (fs : FS)

/-- The middleware `upload.single(fieldname)` over the disk storage of lines
27 to 34 (destination `./uploads/`); `filename` is what the `filename` callback
computes for this request, `Date.now() + path.extname(file.originalname)`.
A single file part under `fieldname` is stored and handed to the handler.  A
file part under another field name, or a second file part, is refused with the
error `Unexpected field`, and a part stored before the refusal is removed. -/
def uploadSingle (fieldname : String) (filename : String) (fs : FS) (req : UploadRequest) :
    Uploaded :=
  match req.files with
  | [] => Uploaded.next none fs
  | [part] =>
    if part.fieldname = fieldname then
      Uploaded.next (some ("uploads/" ++ filename))
        (writeFile fs ("uploads/" ++ filename) part.content)
    else Uploaded.failed "Unexpected field" fs
  | first :: _ :: _ =>
    if first.fieldname = fieldname then
      Uploaded.failed "Unexpected field"
        (unlink (writeFile fs ("uploads/" ++ filename) first.content) ("uploads/" ++ filename))
    else Uploaded.failed "Unexpected field" fs

/-- The outcome of one request: the response (none when the process exited
before any was sent), the effects of the handler, the file system left. -/
structure Handled where
  response : Option Response
  effects : List Effect
  fs : FS

/-- The handler `async (req, res) => ...` of `POST /upload-audio`; `file` is
`req.file.path`, present when the middleware stored an "audio" file. -/
def uploadAudio (WaveFile : WaveFileCtor) (send : TranscribeSend) (fs : FS)
    (file : Option String) : Handled :=
  match file with
  | none => ⟨some ⟨400, Body.text "No file uploaded."⟩, [], fs⟩
  | some audioPath =>
    match transcribeAudio WaveFile send fs audioPath with
    | (Outcome.exited _, effects) => ⟨none, effects, fs⟩
    | (Outcome.resolved transcription, effects) =>
      -- try, then finally
      ⟨some ⟨200, Body.json transcription⟩, effects ++ [Effect.unlink audioPath],
        unlink fs audioPath⟩
    | (Outcome.rejected message, effects) =>
      -- catch, then finally
      ⟨some ⟨500, Body.text ("Error transcribing audio: " ++ message)⟩,
        effects ++ [Effect.unlink audioPath], unlink fs audioPath⟩

/-- The route `app.post("/upload-audio", upload.single("audio"), handler)`: the
middleware runs first; an error it passes on is answered by the default error
handler with status 500 and the handler is not entered. -/
def postUploadAudio (WaveFile : WaveFileCtor) (send : TranscribeSend) (filename : String)
    (fs : FS) (req : UploadRequest) : Handled :=
  match uploadSingle "audio" filename fs req with
  | Uploaded.failed message fs1 => ⟨some ⟨500, Body.defaultError message⟩, [], fs1⟩
  | Uploaded.next file fs1 => uploadAudio WaveFile send fs1 file

/-! ## Conversation gateway -/

/-- The fixed prompt of the "startConversation" handler. -/
def questionPrompt : String :=
  "You are a helpful assistant that asks questions on a specific topic. Ask me a question about a random topic."

/-- The request body built by `generateClaudeResponse`. -/
def messagesRequest (prompt : String) : MessagesRequest :=
  { model := "claude-3-sonnet-20240229", max_tokens := 1024, role := "user", content := prompt }

/-- The function `generateClaudeResponse`: the awaited call is one effect, and
the `catch` rethrows. -/
def generateClaudeResponse (post : ClaudePost) (prompt : String) :
    Except String String × List Effect :=
  let called := [Effect.post "/messages" (messagesRequest prompt)]
  match post "/messages" (messagesRequest prompt) with
  | Except.error e => (Except.error e, called)
  | Except.ok content =>
    match content.head? with
    | none => (Except.error "Cannot read properties of undefined (reading \x27text\x27)", called)
    | some text => (Except.ok text, called)

/-- The handler of the "startConversation" socket event: the effects it performs. -/
def startConversation (post : ClaudePost) : List Effect :=
  let r := generateClaudeResponse post questionPrompt
  match r.1 with
  | Except.ok question => r.2 ++ [Effect.emit "question" question]
  | Except.error _ => r.2 ++ [Effect.emit "error" "Failed to generate question"]

/-! ## A concrete container reader, to run the model on concrete files -/

/-- Little-endian value of a byte list. -/
def le (bs : Bytes) : Nat :=
  bs.foldr (fun b acc => b + 256 * acc) 0

/-- A reader of the canonical 44-byte RIFF/WAVE header: "RIFF", size, "WAVE",
"fmt ", the sixteen bytes of the format chunk, "data". -/
def canonicalWaveFile : WaveFileCtor := fun buffer =>
  if buffer.take 4 ≠ [82, 73, 70, 70] then Except.error "Not a supported format."
  else if (buffer.drop 8).take 4 ≠ [87, 65, 86, 69] then
    Except.error "Could not find the WAVE format identifier"
  else if (buffer.drop 12).take 4 ≠ [102, 109, 116, 32] ∨ buffer.length < 36 then
    Except.error "Could not find the fmt chunk"
  else if (buffer.drop 36).take 4 ≠ [100, 97, 116, 97] then
    Except.error "Could not find the data chunk"
  else
    Except.ok
      { audioFormat := le ((buffer.drop 20).take 2)
        numChannels := le ((buffer.drop 22).take 2)
        sampleRate := le ((buffer.drop 24).take 4)
        bitsPerSample := le ((buffer.drop 34).take 2) }

/-- A 44-byte header followed by `data`, with the given format fields. -/
def wavBytes (audioFormat numChannels sampleRate bitsPerSample : Nat) (data : Bytes) : Bytes :=
  [82, 73, 70, 70] ++ [0, 0, 0, 0] ++ [87, 65, 86, 69] ++ [102, 109, 116, 32] ++ [16, 0, 0, 0] ++
  [audioFormat % 256, audioFormat / 256 % 256] ++
  [numChannels % 256, numChannels / 256 % 256] ++
  [sampleRate % 256, sampleRate / 256 % 256, sampleRate / 65536 % 256, sampleRate / 16777216 % 256] ++
  [0, 0, 0, 0] ++ [0, 0] ++
  [bitsPerSample % 256, bitsPerSample / 256 % 256] ++
  [100, 97, 116, 97] ++ [0, 0, 0, 0] ++ data

/-- A file system holding one file. -/
def singleFile (path : String) (content : Bytes) : FS :=
  fun q => if q = path then some content else none

/-- A stream of two events whose results alternate partial and final. -/
def sampleEvents : List StreamEvent :=
  [ ⟨some ⟨some ⟨some [⟨some true, [⟨"hel"⟩]⟩, ⟨some false, [⟨"hello"⟩]⟩]⟩⟩⟩,
    ⟨some ⟨some ⟨some []⟩⟩⟩,
    ⟨none⟩,
    ⟨some ⟨some ⟨some [⟨some true, [⟨"wor"⟩]⟩, ⟨some false, [⟨"world"⟩, ⟨"word "⟩]⟩, ⟨none, [⟨"?"⟩]⟩]⟩⟩⟩ ]

/-- A transcription service that delivers `sampleEvents` and ends normally. -/
def sampleSend : TranscribeSend := fun _ => Except.ok ⟨sampleEvents, none⟩

/-- A transcription service that rejects every request. -/
def failingSend : TranscribeSend := fun _ => Except.error "socket hang up"

/-- A file system holding one valid mono 16 kHz 16-bit PCM upload. -/
def sampleFS : FS := singleFile "uploads/1700000000000.wav" (wavBytes 1 1 16000 16 [7, 0])

/-! ## The transcription as the specification words it -/

/-- The result list that an event carries; an event with a missing member
carries none. -/
def eventResults (event : StreamEvent) : List Result :=
  match event.TranscriptEvent with
  | none => []
  | some te =>
    match te.Transcript with
    | none => []
    | some t => t.Results.getD []

/-- The texts of every alternative of every result whose partial flag is
false, in event-arrival order and then result order. -/
def finalTexts (events : List StreamEvent) : List String :=
  ((events.flatMap eventResults).filter (fun r => r.IsPartial = some false)).flatMap
    (fun r => r.Alternatives.map (fun a => a.Transcript))

/-- The final texts joined with single spaces, the whole trimmed. -/
def joinedFinalTranscript (events : List StreamEvent) : String :=
  jsTrim (" ".intercalate (finalTexts events))

/-- Appending each text followed by a space to an accumulator, left to right. -/
def appendSpaced (acc : String) (texts : List String) : String :=
  texts.foldl (fun acc t => acc ++ (t ++ " ")) acc

/-- The texts one result contributes. -/
def resultTexts (result : Result) : List String :=
  if result.IsPartial = some false then result.Alternatives.map (fun a => a.Transcript) else []

/-- The event with the results whose partial flag is true removed. -/
def dropPartial (event : StreamEvent) : StreamEvent :=
  match event with
  | ⟨some ⟨some ⟨some results⟩⟩⟩ =>
    ⟨some ⟨some ⟨some (results.filter (fun r => r.IsPartial ≠ some true))⟩⟩⟩
  | other => other

/-- An effect is outbound on the socket when it is an `emit`. -/
def Effect.isEmit : Effect → Bool
  | Effect.emit _ _ => true
  | _ => false

/-- An effect contacts the transcription service when it is a `send`. -/
def Effect.isSend : Effect → Bool
  | Effect.send _ => true
  | _ => false

/-! ## Audio validator: theorems -/

/-- The value of `verifyAudioFile` on a non-empty file that the container
reader accepts: the conjunction of the three format checks. -/
theorem verifyAudioFile_of_parsed (WaveFile : WaveFileCtor) (fs : FS) (path : String)
    (buffer : Bytes) (fmt : Fmt) (hfile : fs path = some buffer) (hne : buffer ≠ [])
    (hparse : WaveFile buffer = Except.ok fmt) :
    verifyAudioFile WaveFile fs path =
      Except.ok (decide (fmt.sampleRate = 16000 ∧ fmt.bitsPerSample = 16 ∧ fmt.audioFormat = 1)) := by
  have hlen : buffer.length ≠ 0 := by
    intro h
    exact hne (List.length_eq_zero.mp h)
  unfold verifyAudioFile verifyAudioFileBody
  simp only [hfile, hparse, hlen, if_false]
  by_cases h1 : fmt.sampleRate = 16000
  · by_cases h2 : fmt.bitsPerSample = 16
    · by_cases h3 : fmt.audioFormat = 1 <;> simp [h1, h2, h3]
    · simp [h1, h2]
  · simp [h1]

/-- C2: a non-empty file that parses as a WAV container whose format chunk has
sampleRate 16000, bitsPerSample 16 and audioFormat 1 is accepted:
`verifyAudioFile` returns true. -/
theorem verifyAudioFile_accepts_pcm16k (WaveFile : WaveFileCtor) (fs : FS) (path : String)
    (buffer : Bytes) (fmt : Fmt) (hfile : fs path = some buffer) (hne : buffer ≠ [])
    (hparse : WaveFile buffer = Except.ok fmt) (hrate : fmt.sampleRate = 16000)
    (hbits : fmt.bitsPerSample = 16) (hpcm : fmt.audioFormat = 1) :
    verifyAudioFile WaveFile fs path = Except.ok true := by
  rw [verifyAudioFile_of_parsed WaveFile fs path buffer fmt hfile hne hparse]
  simp [hrate, hbits, hpcm]

/-- Witness of C2: a mono 16 kHz 16-bit PCM file read by the canonical reader. -/
theorem verifyAudioFile_accepts_pcm16k_witness :
    verifyAudioFile canonicalWaveFile (singleFile "1700000000000.wav" (wavBytes 1 1 16000 16 [7, 0]))
      "1700000000000.wav" = Except.ok true :=
  verifyAudioFile_accepts_pcm16k canonicalWaveFile
    (singleFile "1700000000000.wav" (wavBytes 1 1 16000 16 [7, 0])) "1700000000000.wav"
    (wavBytes 1 1 16000 16 [7, 0]) ⟨16000, 16, 1, 1⟩ (by decide) (by decide) rfl
    rfl rfl rfl

/-- C3: a file that parses as a WAV container whose sampleRate is not 16000, or
whose bitsPerSample is not 16, or whose audioFormat is not 1, is rejected:
`verifyAudioFile` returns false. -/
theorem verifyAudioFile_rejects_wrong_format (WaveFile : WaveFileCtor) (fs : FS) (path : String)
    (buffer : Bytes) (fmt : Fmt) (hfile : fs path = some buffer)
    (hparse : WaveFile buffer = Except.ok fmt)
    (hbad : fmt.sampleRate ≠ 16000 ∨ fmt.bitsPerSample ≠ 16 ∨ fmt.audioFormat ≠ 1) :
    verifyAudioFile WaveFile fs path = Except.ok false := by
  by_cases hne : buffer = []
  · subst hne
    simp [verifyAudioFile, verifyAudioFileBody, hfile]
  · rw [verifyAudioFile_of_parsed WaveFile fs path buffer fmt hfile hne hparse]
    rcases hbad with h | h | h <;> simp [h]

/-- Witness of C3: a 44100 Hz file is rejected. -/
theorem verifyAudioFile_rejects_wrong_format_witness :
    verifyAudioFile canonicalWaveFile (singleFile "cd.wav" (wavBytes 1 1 44100 16 [7, 0]))
      "cd.wav" = Except.ok false :=
  verifyAudioFile_rejects_wrong_format canonicalWaveFile
    (singleFile "cd.wav" (wavBytes 1 1 44100 16 [7, 0])) "cd.wav"
    (wavBytes 1 1 44100 16 [7, 0]) ⟨44100, 16, 1, 1⟩ (by decide) rfl
    (Or.inl (by decide))

/-- C4: on a non-empty file that the container reader refuses, the fallback
call `verifyRawPCM(buffer)` raises (the name is bound nowhere), the outer
`catch` takes the error, and `verifyAudioFile` returns false, not true. -/
theorem verifyAudioFile_unparsable_rejected (WaveFile : WaveFileCtor) (fs : FS) (path : String)
    (buffer : Bytes) (wavError : String) (hfile : fs path = some buffer) (hne : buffer ≠ [])
    (hparse : WaveFile buffer = Except.error wavError) :
    verifyAudioFile WaveFile fs path = Except.ok false := by
  have hlen : buffer.length ≠ 0 := by
    intro h
    exact hne (List.length_eq_zero.mp h)
  simp [verifyAudioFile, verifyAudioFileBody, verifyRawPCM, hfile, hparse, hlen]

/-- Witness of C4: three arbitrary bytes, no RIFF header. -/
theorem verifyAudioFile_unparsable_rejected_witness :
    canonicalWaveFile [1, 2, 3] = Except.error "Not a supported format." ∧
    verifyAudioFile canonicalWaveFile (singleFile "noise.raw" [1, 2, 3]) "noise.raw" =
      Except.ok false :=
  ⟨rfl, verifyAudioFile_unparsable_rejected canonicalWaveFile
    (singleFile "noise.raw" [1, 2, 3]) "noise.raw" [1, 2, 3] "Not a supported format."
    (by decide) (by decide) rfl⟩

/-- C5, as stated, fails: a stereo file (numChannels 2) with sampleRate 16000,
bitsPerSample 16 and audioFormat 1 parses as a WAV container and is accepted. -/
theorem verifyAudioFile_stereo_accepted :
    canonicalWaveFile (wavBytes 1 2 16000 16 [7, 0, 9, 0]) = Except.ok ⟨16000, 16, 1, 2⟩ ∧
    (⟨16000, 16, 1, 2⟩ : Fmt).numChannels ≠ 1 ∧
    verifyAudioFile canonicalWaveFile (singleFile "stereo.wav" (wavBytes 1 2 16000 16 [7, 0, 9, 0]))
      "stereo.wav" = Except.ok true := by
  refine ⟨rfl, by decide, rfl⟩

/-- C5, amended: a non-empty file that parses as a WAV container and is not mono
is rejected exactly when its sampleRate is not 16000, or its bitsPerSample is
not 16, or its audioFormat is not 1; the channel count is not checked, and a
non-mono file with the three required values is accepted. -/
theorem verifyAudioFile_not_mono (WaveFile : WaveFileCtor) (fs : FS) (path : String)
    (buffer : Bytes) (fmt : Fmt) (hfile : fs path = some buffer) (hne : buffer ≠ [])
    (hparse : WaveFile buffer = Except.ok fmt) (hchan : fmt.numChannels ≠ 1) :
    (verifyAudioFile WaveFile fs path = Except.ok false ↔
      (fmt.sampleRate ≠ 16000 ∨ fmt.bitsPerSample ≠ 16 ∨ fmt.audioFormat ≠ 1)) ∧
    (verifyAudioFile WaveFile fs path = Except.ok true ↔
      (fmt.sampleRate = 16000 ∧ fmt.bitsPerSample = 16 ∧ fmt.audioFormat = 1)) := by
  have _ := hchan
  rw [verifyAudioFile_of_parsed WaveFile fs path buffer fmt hfile hne hparse]
  constructor
  · simp only [Except.ok.injEq, decide_eq_false_iff_not]
    tauto
  · simp only [Except.ok.injEq, decide_eq_true_eq]

/-- Witness of C5 amended: a stereo 8 kHz file is rejected for its sample rate. -/
theorem verifyAudioFile_not_mono_witness :
    (verifyAudioFile canonicalWaveFile (singleFile "s8k.wav" (wavBytes 1 2 8000 16 [7, 0, 9, 0]))
        "s8k.wav" = Except.ok false ↔
      ((8000 : Nat) ≠ 16000 ∨ (16 : Nat) ≠ 16 ∨ (1 : Nat) ≠ 1)) ∧
    (verifyAudioFile canonicalWaveFile (singleFile "s8k.wav" (wavBytes 1 2 8000 16 [7, 0, 9, 0]))
        "s8k.wav" = Except.ok true ↔
      ((8000 : Nat) = 16000 ∧ (16 : Nat) = 16 ∧ (1 : Nat) = 1)) :=
  verifyAudioFile_not_mono canonicalWaveFile
    (singleFile "s8k.wav" (wavBytes 1 2 8000 16 [7, 0, 9, 0])) "s8k.wav"
    (wavBytes 1 2 8000 16 [7, 0, 9, 0]) ⟨8000, 16, 1, 2⟩ (by decide) (by decide) rfl
    (by decide)

/-- C6: on a file whose byte size is 0, `verifyAudioFile` returns false; it
returns, it does not raise. -/
theorem verifyAudioFile_empty (WaveFile : WaveFileCtor) (fs : FS) (path : String)
    (hfile : fs path = some []) :
    verifyAudioFile WaveFile fs path = Except.ok false := by
  simp [verifyAudioFile, verifyAudioFileBody, hfile]

/-- Witness of C6: an empty upload. -/
theorem verifyAudioFile_empty_witness :
    singleFile "empty.wav" [] "empty.wav" = some [] ∧
    verifyAudioFile canonicalWaveFile (singleFile "empty.wav" []) "empty.wav" = Except.ok false :=
  ⟨by decide, verifyAudioFile_empty canonicalWaveFile (singleFile "empty.wav" []) "empty.wav"
    (by decide)⟩

/-! ## Transcription adapter: theorems -/

theorem appendSpaced_append (acc : String) (xs ys : List String) :
    appendSpaced (appendSpaced acc xs) ys = appendSpaced acc (xs ++ ys) := by
  simp [appendSpaced, List.foldl_append]

theorem accumulateResult_eq (acc : String) (result : Result) :
    accumulateResult acc result = appendSpaced acc (resultTexts result) := by
  unfold accumulateResult resultTexts appendSpaced
  by_cases h : result.IsPartial = some false
  · simp only [h, if_true, List.foldl_map]
  · simp only [h, if_false, List.foldl_nil]

theorem foldl_accumulateResult (results : List Result) (acc : String) :
    results.foldl accumulateResult acc = appendSpaced acc (results.flatMap resultTexts) := by
  induction results generalizing acc with
  | nil => simp [appendSpaced]
  | cons r rs ih =>
    rw [List.foldl_cons, ih, accumulateResult_eq, appendSpaced_append, List.flatMap_cons]

theorem accumulateEvent_eq (acc : String) (event : StreamEvent) :
    accumulateEvent acc event = appendSpaced acc ((eventResults event).flatMap resultTexts) := by
  unfold accumulateEvent eventResults
  rcases event with ⟨_ | ⟨_ | ⟨_ | results⟩⟩⟩
  · simp [appendSpaced]
  · simp [appendSpaced]
  · simp [appendSpaced]
  · cases results with
    | nil => simp [appendSpaced]
    | cons r rs =>
      simp only [List.length_cons, gt_iff_lt, Nat.zero_lt_succ, if_true, Option.getD_some]
      exact foldl_accumulateResult (r :: rs) acc

theorem foldl_accumulateEvent (events : List StreamEvent) (acc : String) :
    events.foldl accumulateEvent acc =
      appendSpaced acc (events.flatMap (fun e => (eventResults e).flatMap resultTexts)) := by
  induction events generalizing acc with
  | nil => simp [appendSpaced]
  | cons e es ih =>
    rw [List.foldl_cons, ih, accumulateEvent_eq, appendSpaced_append, List.flatMap_cons]

theorem flatMap_resultTexts (results : List Result) :
    results.flatMap resultTexts =
      (results.filter (fun r => r.IsPartial = some false)).flatMap
        (fun r => r.Alternatives.map (fun a => a.Transcript)) := by
  induction results with
  | nil => rfl
  | cons r rs ih =>
    by_cases h : r.IsPartial = some false
    · simp [List.flatMap_cons, List.filter_cons, resultTexts, h, ih]
    · simp [List.flatMap_cons, List.filter_cons, resultTexts, h, ih]

theorem flatMap_flatMap_resultTexts (events : List StreamEvent) :
    events.flatMap (fun e => (eventResults e).flatMap resultTexts) = finalTexts events := by
  unfold finalTexts
  rw [← flatMap_resultTexts]
  induction events with
  | nil => rfl
  | cons e es ih => simp [List.flatMap_cons, List.flatMap_append, ih]

theorem intercalate_go_append_space (texts : List String) (acc : String) :
    String.intercalate.go acc " " texts ++ " " = appendSpaced (acc ++ " ") texts := by
  induction texts generalizing acc with
  | nil => simp [String.intercalate.go, appendSpaced]
  | cons t ts ih =>
    simp only [String.intercalate.go, appendSpaced, List.foldl_cons]
    rw [ih]
    simp [appendSpaced, String.append_assoc]

theorem appendSpaced_cons (t : String) (ts : List String) :
    appendSpaced "" (t :: ts) = " ".intercalate (t :: ts) ++ " " := by
  simp only [String.intercalate, intercalate_go_append_space]
  simp [appendSpaced]

theorem isJsWhiteSpace_space : isJsWhiteSpace ' ' = true := by decide

theorem jsTrim_append_space (s : String) : jsTrim (s ++ " ") = jsTrim s := by
  unfold jsTrim
  have h : (s ++ " ").data = s.data ++ [' '] := by simp
  rw [h, List.rdropWhile_concat_pos _ _ _ isJsWhiteSpace_space]

theorem jsTrim_appendSpaced (texts : List String) :
    jsTrim (appendSpaced "" texts) = jsTrim (" ".intercalate texts) := by
  cases texts with
  | nil => rfl
  | cons t ts => rw [appendSpaced_cons, jsTrim_append_space]

theorem eventResults_dropPartial (event : StreamEvent) :
    eventResults (dropPartial event) =
      (eventResults event).filter (fun r => r.IsPartial ≠ some true) := by
  rcases event with ⟨_ | ⟨_ | ⟨_ | results⟩⟩⟩ <;> simp [dropPartial, eventResults]

theorem flatMap_resultTexts_filter (results : List Result) :
    (results.filter (fun r => r.IsPartial ≠ some true)).flatMap resultTexts =
      results.flatMap resultTexts := by
  induction results with
  | nil => rfl
  | cons r rs ih =>
    by_cases h : r.IsPartial = some true
    · simp only [List.filter_cons, List.flatMap_cons, h, resultTexts, ne_eq, not_true_eq_false,
        decide_False, Bool.false_eq_true, if_false]
      simpa [resultTexts] using ih
    · simp only [List.filter_cons, List.flatMap_cons, h, ne_eq, not_false_eq_true, decide_True,
        if_true]
      rw [ih]

theorem foldl_accumulateEvent_dropPartial (events : List StreamEvent) (acc : String) :
    (events.map dropPartial).foldl accumulateEvent acc = events.foldl accumulateEvent acc := by
  rw [foldl_accumulateEvent, foldl_accumulateEvent]
  congr 1
  induction events with
  | nil => rfl
  | cons e es ih =>
    rw [List.map_cons, List.flatMap_cons, List.flatMap_cons, ih, eventResults_dropPartial,
      flatMap_resultTexts_filter]

theorem verifyAudioFile_true_file (WaveFile : WaveFileCtor) (fs : FS) (path : String)
    (hvalid : verifyAudioFile WaveFile fs path = Except.ok true) :
    ∃ buffer, fs path = some buffer := by
  cases hfile : fs path with
  | some buffer => exact ⟨buffer, rfl⟩
  | none => simp [verifyAudioFile, verifyAudioFileBody, hfile] at hvalid

/-- C1: once validation has passed and the service has delivered a finite
sequence of transcript events, `transcribeAudio` returns the texts of every
alternative of every result whose partial flag is false, in event-arrival order
and then result order, joined with single spaces and trimmed; results whose
partial flag is true contribute nothing: the loop accumulates the same string
with them removed. -/
theorem transcribeAudio_joins_final_results (WaveFile : WaveFileCtor) (send : TranscribeSend)
    (fs : FS) (path : String) (events : List StreamEvent)
    (hvalid : verifyAudioFile WaveFile fs path = Except.ok true)
    (hsend : send (transcribeParams fs path) = Except.ok ⟨events, none⟩) :
    (transcribeAudio WaveFile send fs path).1 = Outcome.resolved (joinedFinalTranscript events) ∧
    (events.map dropPartial).foldl accumulateEvent "" = events.foldl accumulateEvent "" := by
  refine ⟨?_, foldl_accumulateEvent_dropPartial events ""⟩
  obtain ⟨buffer, hfile⟩ := verifyAudioFile_true_file WaveFile fs path hvalid
  unfold transcribeAudio joinedFinalTranscript
  simp only [hfile, hvalid, hsend]
  rw [foldl_accumulateEvent, flatMap_flatMap_resultTexts, jsTrim_appendSpaced]

/-- Witness of C1: a valid upload and a stream whose results alternate partial
and final. -/
theorem transcribeAudio_joins_final_results_witness :
    ((transcribeAudio canonicalWaveFile sampleSend sampleFS "uploads/1700000000000.wav").1 =
        Outcome.resolved (joinedFinalTranscript sampleEvents) ∧
      (sampleEvents.map dropPartial).foldl accumulateEvent "" =
        sampleEvents.foldl accumulateEvent "") ∧
    joinedFinalTranscript sampleEvents = "hello world word" ∧
    sampleEvents.foldl accumulateEvent "" = "hello world word  " :=
  ⟨transcribeAudio_joins_final_results canonicalWaveFile sampleSend sampleFS
    "uploads/1700000000000.wav" sampleEvents rfl rfl, by decide, by decide⟩

/-- C7, as stated, fails: at a path that holds no file `verifyAudioFile`
returns false, yet `transcribeAudio` does not fail with the error that names the
required format: the read stream it opened first raises an uncaught `error`
event and the process exits while the function sleeps. -/
theorem transcribeAudio_missing_file_exits :
    verifyAudioFile canonicalWaveFile (fun _ => none) "uploads/gone.wav" = Except.ok false ∧
    transcribeAudio canonicalWaveFile sampleSend (fun _ => none) "uploads/gone.wav" =
      (Outcome.exited "ENOENT: no such file or directory, open uploads/gone.wav",
        [Effect.createReadStream "uploads/gone.wav" 16384, Effect.sleep 1000]) ∧
    (transcribeAudio canonicalWaveFile sampleSend (fun _ => none) "uploads/gone.wav").1 ≠
      Outcome.rejected ("Invalid audio file " ++ "uploads/gone.wav" ++
        ". Please ensure it\x27s a 16-bit PCM WAV file with 16000 Hz sample rate.") := by
  refine ⟨rfl, rfl, by decide⟩

/-- C7, amended: for every path that holds a file and for which
`verifyAudioFile` returns false, `transcribeAudio` fails with the error whose
message names the required format (16-bit PCM WAV, 16000 Hz), and no `send` to
the transcription service is among its effects. -/
theorem transcribeAudio_invalid_never_sends (WaveFile : WaveFileCtor) (send : TranscribeSend)
    (fs : FS) (path : String) (buffer : Bytes) (hfile : fs path = some buffer)
    (hinvalid : verifyAudioFile WaveFile fs path = Except.ok false) :
    (transcribeAudio WaveFile send fs path).1 =
      Outcome.rejected ("Invalid audio file " ++ path ++
        ". Please ensure it\x27s a 16-bit PCM WAV file with 16000 Hz sample rate.") ∧
    (transcribeAudio WaveFile send fs path).2 =
      [Effect.createReadStream path 16384, Effect.sleep 1000] ∧
    ∀ e ∈ (transcribeAudio WaveFile send fs path).2, e.isSend = false := by
  have h : transcribeAudio WaveFile send fs path =
      (Outcome.rejected (invalidAudioMessage path),
        [Effect.createReadStream path 16384, Effect.sleep 1000]) := by
    unfold transcribeAudio
    simp only [hfile, hinvalid]
  rw [h]
  refine ⟨rfl, rfl, ?_⟩
  intro e he
  simp only [List.mem_cons, List.mem_singleton, List.not_mem_nil, or_false] at he
  rcases he with rfl | rfl <;> rfl

/-- Witness of C7 amended: a stored 44100 Hz upload, against a service that
would answer. -/
theorem transcribeAudio_invalid_never_sends_witness :
    (transcribeAudio canonicalWaveFile sampleSend
      (singleFile "uploads/1.wav" (wavBytes 1 1 44100 16 [7, 0])) "uploads/1.wav").1 =
      Outcome.rejected ("Invalid audio file " ++ "uploads/1.wav" ++
        ". Please ensure it\x27s a 16-bit PCM WAV file with 16000 Hz sample rate.") ∧
    (transcribeAudio canonicalWaveFile sampleSend
      (singleFile "uploads/1.wav" (wavBytes 1 1 44100 16 [7, 0])) "uploads/1.wav").2 =
      [Effect.createReadStream "uploads/1.wav" 16384, Effect.sleep 1000] ∧
    ∀ e ∈ (transcribeAudio canonicalWaveFile sampleSend
        (singleFile "uploads/1.wav" (wavBytes 1 1 44100 16 [7, 0])) "uploads/1.wav").2,
      e.isSend = false :=
  transcribeAudio_invalid_never_sends canonicalWaveFile sampleSend
    (singleFile "uploads/1.wav" (wavBytes 1 1 44100 16 [7, 0])) "uploads/1.wav"
    (wavBytes 1 1 44100 16 [7, 0]) (by decide) rfl

/-- Every run of `transcribeAudio` starts by opening the read stream, so a
trace without that effect is a trace in which `transcribeAudio` was not invoked. -/
theorem transcribeAudio_opens_first (WaveFile : WaveFileCtor) (send : TranscribeSend)
    (fs : FS) (path : String) :
    (transcribeAudio WaveFile send fs path).2.head? =
      some (Effect.createReadStream path 16384) := by
  unfold transcribeAudio
  cases fs path with
  | none => rfl
  | some buffer =>
    simp only
    cases verifyAudioFile WaveFile fs path with
    | error e => rfl
    | ok b =>
      cases b with
      | false => rfl
      | true =>
        simp only
        cases send (transcribeParams fs path) with
        | error e => rfl
        | ok stream =>
          rcases stream with ⟨evs, _ | failure⟩ <;> rfl

/-- On a path that holds a file, `transcribeAudio` settles: the process does
not exit. -/
theorem transcribeAudio_settles (WaveFile : WaveFileCtor) (send : TranscribeSend)
    (fs : FS) (path : String) (buffer : Bytes) (hfile : fs path = some buffer) :
    (∃ transcription, (transcribeAudio WaveFile send fs path).1 = Outcome.resolved transcription) ∨
    (∃ message, (transcribeAudio WaveFile send fs path).1 = Outcome.rejected message) := by
  unfold transcribeAudio
  simp only [hfile]
  cases verifyAudioFile WaveFile fs path with
  | error e => exact Or.inr ⟨e, rfl⟩
  | ok b =>
    cases b with
    | false => exact Or.inr ⟨_, rfl⟩
    | true =>
      simp only
      cases send (transcribeParams fs path) with
      | error e => exact Or.inr ⟨e, rfl⟩
      | ok stream =>
        rcases stream with ⟨evs, _ | failure⟩
        · exact Or.inl ⟨_, rfl⟩
        · exact Or.inr ⟨failure, rfl⟩

/-! ## HTTP upload endpoint: theorems -/

/-- The handler after a stored upload: it answers, its effects are those of
`transcribeAudio` followed by the `unlink`, and the file system left is the one
with the upload removed. -/
theorem uploadAudio_of_stored (WaveFile : WaveFileCtor) (send : TranscribeSend) (fs : FS)
    (path : String) (buffer : Bytes) (hstored : fs path = some buffer) :
    (uploadAudio WaveFile send fs (some path)).effects =
      (transcribeAudio WaveFile send fs path).2 ++ [Effect.unlink path] ∧
    (uploadAudio WaveFile send fs (some path)).fs = unlink fs path ∧
    (uploadAudio WaveFile send fs (some path)).response ≠ none := by
  have hs := transcribeAudio_settles WaveFile send fs path buffer hstored
  simp only [uploadAudio]
  generalize transcribeAudio WaveFile send fs path = r at hs ⊢
  rcases r with ⟨o, effects⟩
  rcases hs with ⟨t, ht⟩ | ⟨m, hm⟩
  · simp only at ht
    subst ht
    simp
  · simp only at hm
    subst hm
    simp

/-- C8, as stated, fails: a request whose only file part is under the field
name "file" carries no "audio" file, and it is answered with status 500 by the
upload middleware, not with status 400 by the handler. -/
theorem postUploadAudio_other_field_500 :
    (([⟨"file", "voice.wav", wavBytes 1 1 16000 16 [7, 0]⟩] : List FilePart).filter
      (fun part => part.fieldname = "audio")) = [] ∧
    (postUploadAudio canonicalWaveFile sampleSend "1700000000000.wav" (fun _ => none)
      ⟨[⟨"file", "voice.wav", wavBytes 1 1 16000 16 [7, 0]⟩]⟩).response =
      some ⟨500, Body.defaultError "Unexpected field"⟩ ∧
    (postUploadAudio canonicalWaveFile sampleSend "1700000000000.wav" (fun _ => none)
      ⟨[⟨"file", "voice.wav", wavBytes 1 1 16000 16 [7, 0]⟩]⟩).response ≠
      some ⟨400, Body.text "No file uploaded."⟩ := by
  refine ⟨by decide, rfl, by decide⟩

/-- C8, amended: for every `POST /upload-audio` request that carries no "audio"
file, `transcribeAudio` is not invoked (no effect is performed and the file
system is left as it was); the handler answers with status 400 when the request
carries no file part at all, and the upload middleware answers with status 500,
the handler not being entered, when the request carries a file part under
another field name. -/
theorem postUploadAudio_without_audio_file (WaveFile : WaveFileCtor) (send : TranscribeSend)
    (filename : String) (fs : FS) (req : UploadRequest)
    (hnone : ∀ part ∈ req.files, part.fieldname ≠ "audio") :
    (postUploadAudio WaveFile send filename fs req).effects = [] ∧
    (postUploadAudio WaveFile send filename fs req).fs = fs ∧
    (postUploadAudio WaveFile send filename fs req).response =
      some (match req.files with
        | [] => ⟨400, Body.text "No file uploaded."⟩
        | _ :: _ => ⟨500, Body.defaultError "Unexpected field"⟩) := by
  rcases req with ⟨files⟩
  cases files with
  | nil => exact ⟨rfl, rfl, rfl⟩
  | cons first rest =>
    have hfirst : first.fieldname ≠ "audio" := hnone first (List.mem_cons_self _ _)
    cases rest with
    | nil => simp [postUploadAudio, uploadSingle, hfirst]
    | cons second others => simp [postUploadAudio, uploadSingle, hfirst]

/-- Witness of C8 amended: a request without any file part. -/
theorem postUploadAudio_without_audio_file_witness :
    (postUploadAudio canonicalWaveFile sampleSend "1700000000000.wav" sampleFS ⟨[]⟩).effects = [] ∧
    (postUploadAudio canonicalWaveFile sampleSend "1700000000000.wav" sampleFS ⟨[]⟩).fs = sampleFS ∧
    (postUploadAudio canonicalWaveFile sampleSend "1700000000000.wav" sampleFS ⟨[]⟩).response =
      some ⟨400, Body.text "No file uploaded."⟩ :=
  postUploadAudio_without_audio_file canonicalWaveFile sampleSend "1700000000000.wav" sampleFS
    ⟨[]⟩ (by simp)

/-- C9: after a `POST /upload-audio` request that stored an uploaded file, in
every outcome of `transcribeAudio`, the file at `req.file.path` no longer
exists: the handler ends with the `unlink` of that path, and every other file
is as it was. -/
theorem uploadAudio_removes_upload (WaveFile : WaveFileCtor) (send : TranscribeSend) (fs : FS)
    (path : String) (buffer : Bytes) (hstored : fs path = some buffer) :
    (uploadAudio WaveFile send fs (some path)).fs path = none ∧
    (uploadAudio WaveFile send fs (some path)).effects.getLast? = some (Effect.unlink path) ∧
    ∀ q, q ≠ path → (uploadAudio WaveFile send fs (some path)).fs q = fs q := by
  obtain ⟨heff, hfs, _⟩ := uploadAudio_of_stored WaveFile send fs path buffer hstored
  refine ⟨?_, ?_, ?_⟩
  · simp [hfs, unlink]
  · simp [heff]
  · intro q hq
    simp [hfs, unlink, hq]

/-- Witness of C9: a stored upload whose transcription the service refuses. -/
theorem uploadAudio_removes_upload_witness :
    sampleFS "uploads/1700000000000.wav" = some (wavBytes 1 1 16000 16 [7, 0]) ∧
    ((uploadAudio canonicalWaveFile failingSend sampleFS (some "uploads/1700000000000.wav")).fs
        "uploads/1700000000000.wav" = none ∧
      (uploadAudio canonicalWaveFile failingSend sampleFS
        (some "uploads/1700000000000.wav")).effects.getLast? =
        some (Effect.unlink "uploads/1700000000000.wav") ∧
      ∀ q, q ≠ "uploads/1700000000000.wav" →
        (uploadAudio canonicalWaveFile failingSend sampleFS
          (some "uploads/1700000000000.wav")).fs q = sampleFS q) :=
  ⟨by decide, uploadAudio_removes_upload canonicalWaveFile failingSend sampleFS
    "uploads/1700000000000.wav" (wavBytes 1 1 16000 16 [7, 0]) (by decide)⟩

/-- The route on a request with a single "audio" part: the middleware stores it,
the handler runs, and afterwards the stored path holds nothing while every
other file is as before the request. -/
theorem postUploadAudio_removes_upload (WaveFile : WaveFileCtor) (send : TranscribeSend)
    (filename : String) (fs : FS) (part : FilePart) (haudio : part.fieldname = "audio") :
    (postUploadAudio WaveFile send filename fs ⟨[part]⟩).fs ("uploads/" ++ filename) = none ∧
    (postUploadAudio WaveFile send filename fs ⟨[part]⟩).effects.getLast? =
      some (Effect.unlink ("uploads/" ++ filename)) ∧
    ∀ q, q ≠ "uploads/" ++ filename →
      (postUploadAudio WaveFile send filename fs ⟨[part]⟩).fs q = fs q := by
  have hstored : writeFile fs ("uploads/" ++ filename) part.content ("uploads/" ++ filename) =
      some part.content := by simp [writeFile]
  obtain ⟨heff, hfs, _⟩ := uploadAudio_of_stored WaveFile send
    (writeFile fs ("uploads/" ++ filename) part.content) ("uploads/" ++ filename) part.content
    hstored
  have hroute : postUploadAudio WaveFile send filename fs ⟨[part]⟩ =
      uploadAudio WaveFile send (writeFile fs ("uploads/" ++ filename) part.content)
        (some ("uploads/" ++ filename)) := by
    simp [postUploadAudio, uploadSingle, haudio]
  rw [hroute]
  refine ⟨?_, ?_, ?_⟩
  · simp [hfs, unlink]
  · simp [heff]
  · intro q hq
    simp [hfs, unlink, writeFile, hq]

/-- The three outcomes of a request that stored a file, each on a concrete
input: success, validation failure, failure of the external service. -/
theorem postUploadAudio_outcomes :
    (postUploadAudio canonicalWaveFile sampleSend "1.wav" (fun _ => none)
      ⟨[⟨"audio", "voice.wav", wavBytes 1 1 16000 16 [7, 0]⟩]⟩).response =
      some ⟨200, Body.json "hello world word"⟩ ∧
    (postUploadAudio canonicalWaveFile sampleSend "1.wav" (fun _ => none)
      ⟨[⟨"audio", "voice.wav", [1, 2, 3]⟩]⟩).response =
      some ⟨500, Body.text ("Error transcribing audio: Invalid audio file uploads/1.wav. " ++
        "Please ensure it\x27s a 16-bit PCM WAV file with 16000 Hz sample rate.")⟩ ∧
    (postUploadAudio canonicalWaveFile failingSend "1.wav" (fun _ => none)
      ⟨[⟨"audio", "voice.wav", wavBytes 1 1 16000 16 [7, 0]⟩]⟩).response =
      some ⟨500, Body.text "Error transcribing audio: socket hang up"⟩ := by
  refine ⟨by decide, by decide, by decide⟩

/-! ## Conversation gateway: theorems -/

/-- C10, as stated, fails: when the API call succeeds with an empty content
list, the handler emits "error", not "question". -/
theorem startConversation_empty_content_emits_error :
    (fun _ _ => Except.ok [] : ClaudePost) "/messages" (messagesRequest questionPrompt) =
      Except.ok [] ∧
    startConversation (fun _ _ => Except.ok []) =
      [Effect.post "/messages" (messagesRequest questionPrompt),
        Effect.emit "error" "Failed to generate question"] := by
  refine ⟨rfl, rfl⟩

/-- C10, amended: one invocation of the "startConversation" handler performs
the API call and then emits exactly one event: "question" with the text of the
first content block when the call succeeds with a non-empty content list,
"error" with the fixed message "Failed to generate question" when the call
fails or succeeds with an empty content list; nothing is emitted before the
call. -/
theorem startConversation_emits_once (post : ClaudePost) :
    ((∃ text rest, post "/messages" (messagesRequest questionPrompt) = Except.ok (text :: rest) ∧
        startConversation post =
          [Effect.post "/messages" (messagesRequest questionPrompt), Effect.emit "question" text]) ∨
      ((post "/messages" (messagesRequest questionPrompt) = Except.ok [] ∨
          ∃ err, post "/messages" (messagesRequest questionPrompt) = Except.error err) ∧
        startConversation post =
          [Effect.post "/messages" (messagesRequest questionPrompt),
            Effect.emit "error" "Failed to generate question"])) ∧
    ((startConversation post).filter Effect.isEmit).length = 1 ∧
    ((startConversation post).head?.map Effect.isEmit) = some false := by
  unfold startConversation generateClaudeResponse
  cases hpost : post "/messages" (messagesRequest questionPrompt) with
  | error e =>
    exact ⟨Or.inr ⟨Or.inr ⟨e, rfl⟩, rfl⟩, rfl, rfl⟩
  | ok content =>
    cases content with
    | nil => exact ⟨Or.inr ⟨Or.inl rfl, rfl⟩, rfl, rfl⟩
    | cons text rest => exact ⟨Or.inl ⟨text, rest, rfl, rfl⟩, rfl, rfl⟩

end VoiceAssistant
